import Mathlib

/-!
Verification of the booking engine of the `carrental` repository.

The embedding models the booking subsystem (src/bookings/models.py,
src/bookings/serializers.py, src/bookings/views.py) shallowly:

* instants are integers counting seconds (Python `datetime` at second
  granularity; every concrete input used below has a duration whose
  fractional-day value is exactly representable, so the Python float
  step `Decimal(str(days))` is exact there);
* Python `Decimal` values are rationals (`ℚ`);
* Python truthiness of `self.total_amount` / `self.booking_number` is
  modelled by comparison with `0` / `""`, and of the nullable
  `daily_rate` / date fields by `Option`;
* the Django ORM store is a `List Booking`; queryset filters become
  `List.any`; fallible operations return `Except String`.
-/

namespace CarRental

/-- Booking status choices of `Booking.STATUS_CHOICES` in
src/bookings/models.py. -/
inductive BStatus where
  | pending
  | confirmed
  | active
  | completed
  | cancelled
  | no_show
deriving DecidableEq, Repr

/-- Payment status choices of `Booking.PAYMENT_STATUS_CHOICES`; the
constructor `part` stands for the source string with four more letters
meaning a part payment. -/
inductive PayStatus where
  | pending
  | part
  | paid
  | refunded
  | failed
deriving DecidableEq, Repr

/-- The `Booking` record of src/bookings/models.py, with the fields the
booking engine reads or writes.  `total_amount = 0` models the Python
falsy (unset) value, as does `booking_number = ""`. -/
structure Booking where
  booking_number : String
  customer : Nat
  vehicle_id : Nat
  start_date : Int
  end_date : Int
  daily_rate : ℚ
  total_amount : ℚ
  deposit_amount : ℚ
  status : BStatus
  payment_status : PayStatus
  pickup_location : Option String
  return_location : Option String
  notes : Option String
  cancellation_reason : Option String
deriving DecidableEq, Repr

/-- The fields of a vehicle that the booking engine consumes
(src/vehicles/models.py, read-only to the core). -/
structure Vehicle where
  id : Nat
  daily_rate : ℚ
  is_available : Bool
deriving DecidableEq, Repr

/-- Python `timedelta` day count as used at models.py:190 and
serializers.py:126: `duration.days + duration.seconds / 86400`, where
`timedelta` normalises a signed number of seconds `t` into
`days = t fdiv 86400` and `seconds = t mod 86400 ∈ [0, 86400)`.  For the
positive divisor 86400 the Lean Euclidean `Int.ediv`/`Int.emod` agree
with the Python floor normalisation. -/
def duration_days (t : Int) : ℚ :=
  ((Int.ediv t 86400 : Int) : ℚ) + ((Int.emod t 86400 : Int) : ℚ) / 86400

/-- The normalised day count is exactly the number of seconds divided by
86400 (no precision is lost by the days/seconds split). -/
theorem duration_days_eq (t : Int) : duration_days t = (t : ℚ) / 86400 := by
  have h : (86400 : Int) * Int.ediv t 86400 + Int.emod t 86400 = t :=
    Int.ediv_add_emod t 86400
  have hq : (86400 : ℚ) * ((Int.ediv t 86400 : Int) : ℚ)
      + ((Int.emod t 86400 : Int) : ℚ) = (t : ℚ) := by
    exact_mod_cast congrArg (fun z : Int => (z : ℚ)) h
  rw [duration_days, eq_div_iff (by norm_num : (86400 : ℚ) ≠ 0)]
  field_simp at hq ⊢
  linarith

/-- `Booking.calculate_total_amount` (models.py:186-192).  The Python
guard `if self.start_date and self.end_date and self.daily_rate` is
truthiness: a missing date, a missing rate or a zero rate all fall
through to `Decimal('0.00')`. -/
def calculate_total_amount (start_date end_date : Option Int)
    (daily_rate : Option ℚ) : ℚ :=
  match start_date, end_date, daily_rate with
  | some s, some e, some r =>
      if r = 0 then 0 else r * duration_days (e - s)
  | _, _, _ => 0

/-- `Booking.save` (models.py:161-169): fill in a missing booking number
with the freshly generated one, and compute `total_amount` only when it
is unset (Python falsy, i.e. zero). -/
def Booking.save (fresh : String) (b : Booking) : Booking :=
  let b1 := if b.booking_number = "" then { b with booking_number := fresh } else b
  if b1.total_amount = 0 then
    let t :=
      calculate_total_amount (some b1.start_date) (some b1.end_date) (some b1.daily_rate)
    { b1 with total_amount := t }
  else b1

/-- The holding statuses `['pending', 'confirmed', 'active']` of the
overlap queryset at serializers.py:100 (the glossary's holding set). -/
def holdsVehicle : BStatus → Bool
  | .pending => true
  | .confirmed => true
  | .active => true
  | _ => false

/-- One row of the overlap queryset filter at serializers.py:98-103:
`vehicle_id = ? AND status IN holding AND start_date < :end AND
end_date > :start`. -/
def overlapsWith (vehicle_id : Nat) (start_date end_date : Int) (b : Booking) : Bool :=
  decide (b.vehicle_id = vehicle_id) && holdsVehicle b.status &&
    decide (b.start_date < end_date) && decide (b.end_date > start_date)

/-- `overlapping_bookings.exists()` over the store. -/
def hasOverlap (store : List Booking) (vehicle_id : Nat)
    (start_date end_date : Int) : Bool :=
  store.any (overlapsWith vehicle_id start_date end_date)

/-- The write-only payload of `BookingCreateSerializer`
(serializers.py:41-52). -/
structure CreateRequest where
  vehicle_id : Nat
  start_date : Int
  end_date : Int
  pickup_location : Option String
  return_location : Option String
  notes : Option String
deriving DecidableEq, Repr

/-- Booking creation: `BookingCreateSerializer` field validation
(`validate_vehicle_id`, `validate_start_date`, `validate_end_date`),
its object-level `validate` overlap check, then `create`
(serializers.py:54-130) followed by `Booking.save` (models.py:161-169).
The vehicle has already been looked up by id; `fresh` is the booking
number produced by the generator.  `validate_end_date` is modelled on
its normal path where the submitted start date parses. -/
def createBooking (store : List Booking) (now : Int) (vehicle : Vehicle)
    (req : CreateRequest) (customer : Nat) (fresh : String) : Except String Booking :=
  if vehicle.is_available = false then
    Except.error ("This vehicle is not available for booking.")
  else if req.start_date ≤ now then
    Except.error ("Start date must be in the future.")
  else if req.end_date ≤ req.start_date then
    Except.error ("End date must be after start date.")
  else if hasOverlap store req.vehicle_id req.start_date req.end_date then
    Except.error ("This vehicle is already booked for the selected dates.")
  else
    Except.ok (Booking.save fresh
      { booking_number := ""
        customer := customer
        vehicle_id := vehicle.id
        start_date := req.start_date
        end_date := req.end_date
        daily_rate := vehicle.daily_rate
        total_amount := 0
        deposit_amount :=
          vehicle.daily_rate * duration_days (req.end_date - req.start_date) * (2 / 10)
        status := .pending
        payment_status := .pending
        pickup_location := req.pickup_location
        return_location := req.return_location
        notes := req.notes
        cancellation_reason := none })

/-- The payload of `BookingUpdateSerializer` (serializers.py:133-173);
`none` in an outer position means the field is absent from the request
body (DRF then skips its field validator and leaves the stored value). -/
structure UpdateRequest where
  start_date : Option Int
  end_date : Option Int
  pickup_location : Option String
  return_location : Option String
  notes : Option String
  status : Option BStatus
deriving DecidableEq, Repr

/-- The end-after-start check of `validate_end_date`
(serializers.py:152-164): it reads the start date out of the raw request
body, so it runs only when the payload carries both dates. -/
def endNotAfterStart (req : UpdateRequest) : Bool :=
  match req.start_date, req.end_date with
  | some s, some e => decide (e ≤ s)
  | _, _ => false

/-- Booking update: `BookingUpdateSerializer` validation followed by the
DRF `ModelSerializer.update` (set the supplied fields, then
`instance.save()`).  Each field validator runs only when its field is
present in the payload; in particular `validate_status` is skipped when
the payload does not carry `status` (serializers.py:166-173), and no
overlap re-check exists on this path. -/
def updateBooking (b : Booking) (req : UpdateRequest) (now : Int)
    (fresh : String) : Except String Booking :=
  if req.start_date.any (fun s => decide (s ≤ now)) then
    Except.error ("Start date must be in the future.")
  else if endNotAfterStart req then
    Except.error ("End date must be after start date.")
  else if req.status.isSome && (decide (b.status = .completed) || decide (b.status = .cancelled)) then
    Except.error ("Cannot modify completed or cancelled bookings.")
  else
    Except.ok (Booking.save fresh
      { b with
        start_date := req.start_date.getD b.start_date
        end_date := req.end_date.getD b.end_date
        pickup_location := match req.pickup_location with
          | some v => some v
          | none => b.pickup_location
        return_location := match req.return_location with
          | some v => some v
          | none => b.return_location
        notes := match req.notes with
          | some v => some v
          | none => b.notes
        status := req.status.getD b.status })

/-- `BookingConfirmView.post` (views.py:191-216): confirm only from
`pending`, with its success or failure message; every other status
leaves the booking untouched. -/
def confirmBooking (b : Booking) (fresh : String) : Bool × String × Booking :=
  if b.status = .pending then
    (true, "Booking confirmed successfully", Booking.save fresh { b with status := .confirmed })
  else
    (false, "Booking cannot be confirmed", b)

/-- `Booking.can_cancel` (models.py:230-237). -/
def can_cancel (b : Booking) (now : Int) : Bool :=
  (decide (b.status = .pending) || decide (b.status = .confirmed)) &&
    decide (b.start_date > now)

/-- `Booking.cancel_booking` (models.py:239-246). -/
def cancel_booking (b : Booking) (reason : Option String) (now : Int)
    (fresh : String) : Bool × Booking :=
  if can_cancel b now then
    (true, Booking.save fresh { b with status := .cancelled, cancellation_reason := reason })
  else
    (false, b)

/-- `BookingCancelView.post` (views.py:151-181): the
`BookingCancelSerializer.validate` guard (serializers.py:226-233) runs
first and rejects without mutation, then `cancel_booking` performs the
transition. -/
def cancelEndpoint (b : Booking) (reason : Option String) (now : Int)
    (fresh : String) : Bool × Booking :=
  if can_cancel b now = false then (false, b)
  else cancel_booking b reason now fresh

/-- `Booking.is_upcoming` (models.py:211-218). -/
def is_upcoming (b : Booking) (now : Int) : Bool :=
  (decide (b.status = .pending) || decide (b.status = .confirmed)) &&
    decide (b.start_date > now)

/-- The alphabet `string.ascii_uppercase + string.digits` of
`generate_booking_number` (models.py:177). -/
def alphabet : List Char := "ABCDEFGHIJKLMNOPQRSTUVWXYZ0123456789".toList

theorem alphabet_length : alphabet.length = 36 := rfl

/-- One candidate code: eight draws from the alphabet,
`''.join(random.choice(chars) for _ in range(8))` (models.py:178), with
the random draws supplied as an explicit choice function. -/
def candidateCode (pick : Nat → Fin 36) : String :=
  String.mk ((List.range 8).map
    (fun i => alphabet.get (Fin.cast alphabet_length.symm (pick i))))

/-- `Booking.objects.filter(booking_number=...).exists()`
(models.py:181) over the store. -/
def bookingNumberExists (store : List Booking) (s : String) : Bool :=
  store.any (fun b => decide (b.booking_number = s))

/-- `Booking.generate_booking_number` (models.py:171-184): draw a code,
and while it collides with a stored booking number draw another; the
result is the first non-colliding candidate.  `picks n` is the sequence
of random draws of attempt `n`; the loop terminates exactly on the
evidence `h` that some attempt is fresh. -/
def generate_booking_number (store : List Booking) (picks : Nat → Nat → Fin 36)
    (h : ∃ n, bookingNumberExists store (candidateCode (picks n)) = false) : String :=
  candidateCode (picks (Nat.find h))

/-- Modelled from the spec: rounding a money amount to 2 decimal
places, for comparison with the source's deposit computation (the
concrete values compared below are not ties, so the tie-breaking rule is
immaterial). -/
def round2 (q : ℚ) : ℚ := ((⌊q * 100 + 1 / 2⌋ : Int) : ℚ) / 100

/-- A concrete booking used by several concrete inputs below. -/
def baseBooking : Booking :=
  { booking_number := "AAAAAAAA"
    customer := 1
    vehicle_id := 1
    start_date := 864000
    end_date := 950400
    daily_rate := 100
    total_amount := 100
    deposit_amount := 20
    status := .pending
    payment_status := .pending
    pickup_location := none
    return_location := none
    notes := none
    cancellation_reason := none }

/-- An empty update payload. -/
def emptyUpdate : UpdateRequest :=
  { start_date := none
    end_date := none
    pickup_location := none
    return_location := none
    notes := none
    status := none }

def c1Vehicle : Vehicle := { id := 1, daily_rate := 50, is_available := true }

/-- An existing pending booking on vehicle 1 over `[0, 86400)`. -/
def c1Existing : Booking :=
  { baseBooking with start_date := 0, end_date := 86400, total_amount := 50, deposit_amount := 10,
                     daily_rate := 50 }

/-- A creation request on vehicle 1 over `[86400, 172800)`: it touches
`c1Existing` exactly at 86400. -/
def c1Req : CreateRequest :=
  { vehicle_id := 1
    start_date := 86400
    end_date := 172800
    pickup_location := none
    return_location := none
    notes := none }

def c4Vehicle : Vehicle := { id := 1, daily_rate := 50, is_available := true }

/-- A creation request over exactly two days. -/
def c4CreateReq : CreateRequest :=
  { vehicle_id := 1
    start_date := 86400
    end_date := 259200
    pickup_location := none
    return_location := none
    notes := none }

/-- The booking `createBooking` produces from `c4CreateReq`. -/
def c4CreateBk : Booking :=
  { booking_number := "CCCCCCCC"
    customer := 7
    vehicle_id := 1
    start_date := 86400
    end_date := 259200
    daily_rate := 50
    total_amount := 100
    deposit_amount := 20
    status := .pending
    payment_status := .pending
    pickup_location := none
    return_location := none
    notes := none
    cancellation_reason := none }

/-- A consistent stored booking (one day at rate 100, total 100). -/
def c4Booking : Booking := baseBooking

/-- An update payload that moves the end date one day later and touches
nothing else. -/
def c4Req : UpdateRequest := { emptyUpdate with end_date := some 1036800 }

/-- The booking the update produces: bounds now span two days while
`total_amount` is still 100. -/
def c4Updated : Booking := { baseBooking with end_date := 1036800 }

def c5Vehicle : Vehicle := { id := 1, daily_rate := 1001 / 100, is_available := true }

/-- A creation request over half a day (43200 seconds). -/
def c5Req : CreateRequest :=
  { vehicle_id := 1
    start_date := 86400
    end_date := 129600
    pickup_location := none
    return_location := none
    notes := none }

/-- The booking `createBooking` produces from `c5Req`:
`total = 10.01 × 0.5 = 5.005` and `deposit = 1.001`, which rounds to 2
decimal places as `1.00`. -/
def c5Booking : Booking :=
  { booking_number := "DDDDDDDD"
    customer := 3
    vehicle_id := 1
    start_date := 86400
    end_date := 129600
    daily_rate := 1001 / 100
    total_amount := 1001 / 200
    deposit_amount := 1001 / 1000
    status := .pending
    payment_status := .pending
    pickup_location := none
    return_location := none
    notes := none
    cancellation_reason := none }

/-- A pending booking holding vehicle 1 over `[864000, 1728000)`. -/
def c6Other : Booking := baseBooking

/-- A second pending booking on vehicle 1 over `[2592000, 3456000)`,
disjoint from `c6Other`. -/
def c6Booking : Booking :=
  { baseBooking with booking_number := "EEEEEEEE", start_date := 2592000, end_date := 3456000 }

/-- An update that moves `c6Booking` into the middle of `c6Other`. -/
def c6Req : UpdateRequest :=
  { emptyUpdate with start_date := some 900000, end_date := some 930000 }

/-- The booking the update produces: it now overlaps `c6Other`. -/
def c6Updated : Booking :=
  { baseBooking with booking_number := "EEEEEEEE", start_date := 900000, end_date := 930000 }

/-- The all-zero draw sequence, used as a concrete random source. -/
def zeroPicks : Nat → Nat → Fin 36 := fun _ _ => 0

/-- A completed booking. -/
def c7Booking : Booking := { baseBooking with status := .completed }

/-- An update payload carrying only a new notes text (no `status`
field). -/
def c7Req : UpdateRequest := { emptyUpdate with notes := some ("changed") }

/-- The modified completed booking the update produces. -/
def c7Updated : Booking := { baseBooking with status := .completed, notes := some ("changed") }

/-- `Booking.save` never changes the status field. -/
theorem save_status (fresh : String) (b : Booking) :
    (Booking.save fresh b).status = b.status := by
  simp only [Booking.save]
  split_ifs <;> rfl

/-- `Booking.save` keeps a non-zero (Python truthy) total untouched. -/
theorem save_total_of_ne (fresh : String) (b : Booking) (hb : b.total_amount ≠ 0) :
    (Booking.save fresh b).total_amount = b.total_amount := by
  simp only [Booking.save]
  split_ifs <;> first | rfl | exact absurd (by assumption) hb

/-- Characterisation of the cancellation guard `can_cancel`. -/
theorem can_cancel_iff (b : Booking) (now : Int) :
    can_cancel b now = true ↔
      (b.status = .pending ∨ b.status = .confirmed) ∧ now < b.start_date := by
  simp [can_cancel]

/-- Claim C10: the derived predicate `is_upcoming` and the cancellation
guard `can_cancel` are extensionally equal, and both hold exactly when
the status is pending or confirmed and the start instant is strictly
after the current instant. -/
theorem is_upcoming_eq_can_cancel (b : Booking) (now : Int) :
    is_upcoming b now = can_cancel b now ∧
      (can_cancel b now = true ↔
        (b.status = .pending ∨ b.status = .confirmed) ∧ now < b.start_date) :=
  ⟨rfl, can_cancel_iff b now⟩

/-- Witness for C10 at a concrete pending booking whose start is in the
future. -/
theorem is_upcoming_eq_can_cancel_witness : can_cancel baseBooking 0 = true :=
  (is_upcoming_eq_can_cancel baseBooking 0).2.mpr (by decide)

/-- Claim C2: the cancel endpoint succeeds exactly when the status is
pending or confirmed and the start instant is strictly in the future;
on failure the booking is returned entirely unchanged. -/
theorem cancel_succeeds_iff (b : Booking) (reason : Option String) (now : Int)
    (fresh : String) :
    ((cancelEndpoint b reason now fresh).1 = true ↔
      (b.status = .pending ∨ b.status = .confirmed) ∧ now < b.start_date) ∧
    ((cancelEndpoint b reason now fresh).1 = false →
      (cancelEndpoint b reason now fresh).2 = b) := by
  by_cases h : can_cancel b now = true
  · constructor
    · simp only [cancelEndpoint, cancel_booking, h]
      simpa using (can_cancel_iff b now).mp h
    · simp [cancelEndpoint, cancel_booking, h]
  · have h' : can_cancel b now = false := by
      simpa using h
    constructor
    · simp only [cancelEndpoint, h']
      constructor
      · intro hc
        exact absurd hc (by simp)
      · intro hc
        exact absurd ((can_cancel_iff b now).mpr hc) h
    · simp [cancelEndpoint, h']

/-- Witness for C2: cancelling a concrete pending future booking
succeeds. -/
theorem cancel_succeeds_iff_witness :
    (cancelEndpoint baseBooking (some ("why")) 0 ("AAAAAAAA")).1 = true :=
  (cancel_succeeds_iff baseBooking (some ("why")) 0 ("AAAAAAAA")).1.mpr (by decide)

/-- Claim C3: confirm succeeds exactly from status pending, in which
case the status becomes confirmed; from any other status it reports
the failure message and leaves the booking unchanged. -/
theorem confirm_succeeds_iff (b : Booking) (fresh : String) :
    ((confirmBooking b fresh).1 = true ↔ b.status = .pending) ∧
    (b.status = .pending → ((confirmBooking b fresh).2.2).status = .confirmed) ∧
    (b.status ≠ .pending →
      (confirmBooking b fresh).2.1 = "Booking cannot be confirmed" ∧
        (confirmBooking b fresh).2.2 = b) := by
  by_cases h : b.status = .pending
  · refine ⟨iff_of_true ?_ h, fun _ => ?_, fun hn => absurd h hn⟩
    · simp [confirmBooking, h]
    · simp [confirmBooking, h, save_status]
  · refine ⟨iff_of_false ?_ h, fun hp => absurd hp h, fun _ => ?_⟩
    · simp [confirmBooking, h]
    · simp [confirmBooking, h]

/-- Witness for C3: confirming a concrete pending booking yields status
confirmed. -/
theorem confirm_succeeds_iff_witness :
    ((confirmBooking baseBooking ("AAAAAAAA")).2.2).status = .confirmed :=
  (confirm_succeeds_iff baseBooking ("AAAAAAAA")).2.1 rfl

/-- Characterisation of the overlap queryset: it is non-empty exactly
when some stored booking holds the vehicle and half-open-overlaps the
requested interval. -/
theorem hasOverlap_iff (store : List Booking) (vid : Nat) (s e : Int) :
    hasOverlap store vid s e = true ↔
      ∃ b ∈ store, b.vehicle_id = vid ∧ holdsVehicle b.status = true ∧
        b.start_date < e ∧ b.end_date > s := by
  simp [hasOverlap, overlapsWith, List.any_eq_true, and_assoc]

/-- Claim C1: with an available vehicle and valid dates, creation fails
with the conflict error exactly when some stored booking in a holding
status on the same vehicle satisfies `existing.start < new.end` and
`existing.end > new.start`; when no stored holding booking strictly
overlaps (touching intervals included), creation succeeds. -/
theorem create_overlap_conflict_iff (store : List Booking) (now : Int)
    (vehicle : Vehicle) (req : CreateRequest) (customer : Nat) (fresh : String)
    (hav : vehicle.is_available = true)
    (hs : now < req.start_date) (he : req.start_date < req.end_date) :
    (createBooking store now vehicle req customer fresh =
        Except.error ("This vehicle is already booked for the selected dates.") ↔
      ∃ b ∈ store, b.vehicle_id = req.vehicle_id ∧ holdsVehicle b.status = true ∧
        b.start_date < req.end_date ∧ b.end_date > req.start_date) ∧
    ((∀ b ∈ store, b.vehicle_id = req.vehicle_id → holdsVehicle b.status = true →
        b.end_date ≤ req.start_date ∨ req.end_date ≤ b.start_date) →
      ∃ bk, createBooking store now vehicle req customer fresh = Except.ok bk) := by
  have h1 : ¬ (vehicle.is_available = false) := by simp [hav]
  have h2 : ¬ (req.start_date ≤ now) := not_le.mpr hs
  have h3 : ¬ (req.end_date ≤ req.start_date) := not_le.mpr he
  by_cases hov : hasOverlap store req.vehicle_id req.start_date req.end_date = true
  · constructor
    · refine iff_of_true ?_ ((hasOverlap_iff store req.vehicle_id req.start_date req.end_date).mp hov)
      simp only [createBooking, if_neg h1, if_neg h2, if_neg h3, if_pos hov]
    · intro hall
      exfalso
      obtain ⟨b, hbmem, hvid, hh, ho1, ho2⟩ :=
        (hasOverlap_iff store req.vehicle_id req.start_date req.end_date).mp hov
      rcases hall b hbmem hvid hh with h' | h' <;> omega
  · constructor
    · refine iff_of_false ?_
        (fun hex => hov ((hasOverlap_iff store req.vehicle_id req.start_date req.end_date).mpr hex))
      simp only [createBooking, if_neg h1, if_neg h2, if_neg h3, if_neg hov]
      exact fun hc => Except.noConfusion hc
    · intro _
      simp only [createBooking, if_neg h1, if_neg h2, if_neg h3, if_neg hov]
      exact ⟨_, rfl⟩

/-- Witness for C1: a booking touching an existing one exactly at its
end instant is accepted. -/
theorem create_overlap_conflict_iff_witness :
    ∃ bk, createBooking [c1Existing] 0 c1Vehicle c1Req 1 ("BBBBBBBB") = Except.ok bk :=
  (create_overlap_conflict_iff [c1Existing] 0 c1Vehicle c1Req 1 ("BBBBBBBB")
      (by decide) (by decide) (by decide)).2 (by decide)

/-- The fields of a booking produced by a successful creation. -/
theorem createBooking_ok_fields (store : List Booking) (now : Int) (vehicle : Vehicle)
    (req : CreateRequest) (customer : Nat) (fresh : String) (bk : Booking)
    (h : createBooking store now vehicle req customer fresh = Except.ok bk) :
    bk.total_amount =
        calculate_total_amount (some req.start_date) (some req.end_date)
          (some vehicle.daily_rate) ∧
      bk.daily_rate = vehicle.daily_rate ∧
      bk.start_date = req.start_date ∧
      bk.end_date = req.end_date ∧
      bk.deposit_amount =
        vehicle.daily_rate * duration_days (req.end_date - req.start_date) * (2 / 10) := by
  simp only [createBooking] at h
  split at h
  · exact Except.noConfusion h
  split at h
  · exact Except.noConfusion h
  split at h
  · exact Except.noConfusion h
  split at h
  · exact Except.noConfusion h
  · simp only [Except.ok.injEq] at h
    subst h
    exact ⟨rfl, rfl, rfl, rfl, rfl⟩

/-- A successful update leaves a non-zero total amount unchanged. -/
theorem updateBooking_ok_total (b : Booking) (req : UpdateRequest) (now : Int)
    (fresh : String) (b' : Booking) (hb : b.total_amount ≠ 0)
    (h : updateBooking b req now fresh = Except.ok b') :
    b'.total_amount = b.total_amount := by
  simp only [updateBooking] at h
  split at h
  · exact Except.noConfusion h
  split at h
  · exact Except.noConfusion h
  split at h
  · exact Except.noConfusion h
  · simp only [Except.ok.injEq] at h
    subst h
    exact save_total_of_ne fresh _ hb

/-- Claim C4, amended: `total_amount = daily_rate × duration_in_days`
holds at creation, but an update that changes the interval bounds does
not recompute `total_amount`: `Booking.save` only computes it when it is
unset, so a successful update leaves the previously stored total
unchanged. -/
theorem total_amount_create_then_update (store : List Booking) (now : Int)
    (vehicle : Vehicle) (req : CreateRequest) (customer : Nat) (fresh : String)
    (bk : Booking) (b : Booking) (ureq : UpdateRequest) (unow : Int)
    (ufresh : String) (b' : Booking)
    (hc : createBooking store now vehicle req customer fresh = Except.ok bk)
    (hb : b.total_amount ≠ 0)
    (hu : updateBooking b ureq unow ufresh = Except.ok b') :
    bk.total_amount = bk.daily_rate * duration_days (bk.end_date - bk.start_date) ∧
      b'.total_amount = b.total_amount := by
  obtain ⟨ht, hr, hs', he', _⟩ :=
    createBooking_ok_fields store now vehicle req customer fresh bk hc
  refine ⟨?_, updateBooking_ok_total b ureq unow ufresh b' hb hu⟩
  rw [ht, hr, hs', he']
  by_cases h0 : vehicle.daily_rate = 0
  · simp [calculate_total_amount, h0]
  · simp [calculate_total_amount, h0]

/-- Evaluation of the concrete two-day creation behind the C4
witness. -/
theorem c4_create_eval :
    createBooking [] 0 c4Vehicle c4CreateReq 7 ("CCCCCCCC") = Except.ok c4CreateBk := by
  norm_num [createBooking, c4Vehicle, c4CreateReq, c4CreateBk, hasOverlap,
    Booking.save, calculate_total_amount, duration_days_eq]

/-- Counterexample for C4 as stated: an accepted update that moves the
end date one day later keeps the stale total (100), which no longer
equals `daily_rate × duration_in_days` (200). -/
theorem total_amount_update_counterexample :
    updateBooking c4Booking c4Req 0 ("HHHHHHHH") = Except.ok c4Updated ∧
      c4Updated.total_amount ≠
        c4Updated.daily_rate * duration_days (c4Updated.end_date - c4Updated.start_date) := by
  refine ⟨rfl, ?_⟩
  show (100 : ℚ) ≠ 100 * duration_days (1036800 - 864000)
  rw [duration_days_eq]
  norm_num

/-- Witness for the amended C4 at a concrete creation and a concrete
update. -/
theorem total_amount_create_then_update_witness :
    (c4CreateBk.total_amount =
        c4CreateBk.daily_rate * duration_days (c4CreateBk.end_date - c4CreateBk.start_date)) ∧
      c4Updated.total_amount = c4Booking.total_amount :=
  total_amount_create_then_update [] 0 c4Vehicle c4CreateReq 7 ("CCCCCCCC") c4CreateBk
    c4Booking c4Req 0 ("HHHHHHHH") c4Updated c4_create_eval (by norm_num [c4Booking, baseBooking]) rfl

/-- Claim C5, amended: at creation `deposit_amount` equals exactly
`total_amount × 0.2` at full precision; the create path applies no
rounding to 2 decimal places. -/
theorem deposit_exact_fraction (store : List Booking) (now : Int) (vehicle : Vehicle)
    (req : CreateRequest) (customer : Nat) (fresh : String) (bk : Booking)
    (hc : createBooking store now vehicle req customer fresh = Except.ok bk) :
    bk.deposit_amount = bk.total_amount * (2 / 10) := by
  obtain ⟨ht, _, _, _, hd⟩ :=
    createBooking_ok_fields store now vehicle req customer fresh bk hc
  rw [hd, ht]
  by_cases h0 : vehicle.daily_rate = 0
  · simp [calculate_total_amount, h0]
  · simp [calculate_total_amount, h0]

/-- Evaluation of the concrete half-day creation behind the C5
counterexample and witness. -/
theorem c5_create_eval :
    createBooking [] 0 c5Vehicle c5Req 3 ("DDDDDDDD") = Except.ok c5Booking := by
  norm_num [createBooking, c5Vehicle, c5Req, c5Booking, hasOverlap,
    Booking.save, calculate_total_amount, duration_days_eq]

/-- Counterexample for C5 as stated: a half-day booking at rate 10.01
is created with `deposit_amount = 1.001`, which differs from
`round(0.2 × total_amount, 2) = 1.00`. -/
theorem deposit_rounding_counterexample :
    createBooking [] 0 c5Vehicle c5Req 3 ("DDDDDDDD") = Except.ok c5Booking ∧
      c5Booking.deposit_amount ≠ round2 ((2 / 10) * c5Booking.total_amount) := by
  refine ⟨c5_create_eval, ?_⟩
  show (1001 / 1000 : ℚ) ≠ round2 ((2 / 10) * (1001 / 200))
  have hf : ⌊(2 / 10 : ℚ) * (1001 / 200) * 100 + 1 / 2⌋ = 100 := by
    rw [Int.floor_eq_iff]
    norm_num
  rw [round2, hf]
  norm_num

/-- Witness for the amended C5 at the concrete half-day creation. -/
theorem deposit_exact_fraction_witness :
    c5Booking.deposit_amount = c5Booking.total_amount * (2 / 10) :=
  deposit_exact_fraction [] 0 c5Vehicle c5Req 3 ("DDDDDDDD") c5Booking c5_create_eval

/-- Claim C6, code bug: the update path runs no overlap re-check.  A
date change that moves a pending booking into the middle of another
holding booking on the same vehicle is accepted, although the creation
path's own overlap predicate flags the resulting interval. -/
theorem update_skips_overlap_recheck :
    updateBooking c6Booking c6Req 0 ("FFFFFFFF") = Except.ok c6Updated ∧
      hasOverlap [c6Other] c6Updated.vehicle_id c6Updated.start_date c6Updated.end_date
        = true := by
  refine ⟨rfl, by decide⟩

/-- Claim C7, code bug: `validate_status` runs only when the payload
carries the `status` field, so an update of a completed booking that
only changes the notes is accepted and mutates the booking, while the
same update with a `status` field is rejected with the message that
completed bookings cannot be modified. -/
theorem update_completed_without_status_field :
    updateBooking c7Booking c7Req 0 ("GGGGGGGG") = Except.ok c7Updated ∧
      c7Updated ≠ c7Booking ∧
      updateBooking c7Booking { c7Req with status := some .completed } 0 ("GGGGGGGG") =
        Except.error ("Cannot modify completed or cancelled bookings.") := by
  refine ⟨rfl, by decide, rfl⟩

/-- Claim C8: the generated booking reference is an 8-character code
over uppercase letters and digits, differs from every stored booking
number, and is the first fresh candidate of the retry loop: every
earlier candidate collided with the store. -/
theorem booking_number_unique_wellformed (store : List Booking)
    (picks : Nat → Nat → Fin 36)
    (h : ∃ n, bookingNumberExists store (candidateCode (picks n)) = false) :
    (generate_booking_number store picks h).length = 8 ∧
    (∀ c ∈ (generate_booking_number store picks h).data, c ∈ alphabet) ∧
    (∀ b ∈ store, b.booking_number ≠ generate_booking_number store picks h) ∧
    (∀ m < Nat.find h, bookingNumberExists store (candidateCode (picks m)) = true) := by
  refine ⟨?_, ?_, ?_, ?_⟩
  · simp [generate_booking_number, candidateCode, String.length]
  · intro c hc
    simp only [generate_booking_number, candidateCode] at hc
    obtain ⟨i, _, rfl⟩ := List.mem_map.mp hc
    exact List.mem_iff_get.mpr ⟨_, rfl⟩
  · intro b hb heq
    have hfind : bookingNumberExists store (generate_booking_number store picks h) = false :=
      Nat.find_spec h
    have htrue : bookingNumberExists store (generate_booking_number store picks h) = true :=
      List.any_eq_true.mpr ⟨b, hb, by simp [heq]⟩
    rw [hfind] at htrue
    exact Bool.noConfusion htrue
  · intro m hm
    have := Nat.find_min h hm
    simpa using this

/-- Evidence that the all-zero draw yields a fresh code against an
empty store. -/
theorem c8ExistsFresh :
    ∃ n, bookingNumberExists [] (candidateCode (zeroPicks n)) = false :=
  ⟨0, rfl⟩

/-- Witness for C8 with the all-zero random source and an empty
store. -/
theorem booking_number_unique_wellformed_witness :
    (generate_booking_number [] zeroPicks c8ExistsFresh).length = 8 ∧
    (∀ c ∈ (generate_booking_number [] zeroPicks c8ExistsFresh).data, c ∈ alphabet) ∧
    (∀ b ∈ ([] : List Booking),
      b.booking_number ≠ generate_booking_number [] zeroPicks c8ExistsFresh) ∧
    (∀ m < Nat.find c8ExistsFresh, bookingNumberExists [] (candidateCode (zeroPicks m)) = true) :=
  booking_number_unique_wellformed [] zeroPicks c8ExistsFresh

/-- Claim C9, amended: the pricing calculation is total and returns
zero for a missing bound, a missing or zero rate, and an empty interval
(`end = start`); but for a reversed interval (`end < start`) with a
positive rate it returns a strictly negative amount, not zero. -/
theorem calculate_total_degenerate :
    (∀ (e : Option Int) (r : Option ℚ), calculate_total_amount none e r = 0) ∧
    (∀ (s : Option Int) (r : Option ℚ), calculate_total_amount s none r = 0) ∧
    (∀ (s e : Option Int), calculate_total_amount s e none = 0) ∧
    (∀ (s e : Option Int), calculate_total_amount s e (some 0) = 0) ∧
    (∀ (a : Int) (r : Option ℚ), calculate_total_amount (some a) (some a) r = 0) ∧
    (∀ (a b : Int) (q : ℚ), b < a → 0 < q →
      calculate_total_amount (some a) (some b) (some q) < 0) := by
  refine ⟨?_, ?_, ?_, ?_, ?_, ?_⟩
  · intro e r
    cases e <;> cases r <;> rfl
  · intro s r
    cases s <;> cases r <;> rfl
  · intro s e
    cases s <;> cases e <;> rfl
  · intro s e
    cases s <;> cases e <;> simp [calculate_total_amount]
  · intro a r
    cases r with
    | none => rfl
    | some q =>
      by_cases hq : q = 0 <;> simp [calculate_total_amount, hq, duration_days_eq]
  · intro a b q hba hq
    have hq0 : q ≠ 0 := ne_of_gt hq
    simp only [calculate_total_amount, if_neg hq0]
    have hint : (b - a : Int) < 0 := by omega
    have hcast : ((b - a : Int) : ℚ) < 0 := by exact_mod_cast hint
    have hd : duration_days (b - a) < 0 := by
      rw [duration_days_eq]
      exact div_neg_of_neg_of_pos hcast (by norm_num)
    exact mul_neg_of_pos_of_neg hq hd

/-- Counterexample for C9 as stated: a reversed one-day interval at
rate 100 yields -100, not zero. -/
theorem calculate_total_negative_counterexample :
    calculate_total_amount (some 86400) (some 0) (some 100) = -100 ∧
      ¬ calculate_total_amount (some 86400) (some 0) (some 100) = 0 := by
  have h : calculate_total_amount (some 86400) (some 0) (some 100) = -100 := by
    norm_num [calculate_total_amount, duration_days_eq]
  refine ⟨h, by rw [h]; norm_num⟩

/-- Witness for the amended C9: a concrete reversed interval with a
positive rate prices strictly below zero. -/
theorem calculate_total_degenerate_witness :
    calculate_total_amount (some 1) (some 0) (some 5) < 0 :=
  calculate_total_degenerate.2.2.2.2.2 1 0 5 (by norm_num) (by norm_num)

end CarRental
